import Mathlib

/-!
# AEGIS — verification of the score registry and submission orchestrator

Shallow embedding of the AegisRiskManager contract
(`src/contracts/src/AegisRiskManager.sol`), of the client-side submission
orchestrator (`TEEExecutionPanel.executeComputation`) and of the backend
submit route (`app/api/iexec/submit-score/route.ts`).

Modelling conventions:
* Addresses, `bytes32` identifiers and `uint256` values are `Nat`.
  Solidity `^0.8` checked arithmetic is modelled where it can actually
  overflow on adversarial input: the multiplication
  `collateralValue * safeLTV` in `calculateMaxBorrow` can exceed
  `2^256 - 1` for caller-chosen collateral values, so it is modelled as
  reverting with an arithmetic-overflow error there.  Time arithmetic
  (`timestamp + SCORE_VALIDITY_PERIOD`) is left over unbounded `Nat`:
  block timestamps are assigned by the chain and sit astronomically far
  below `2^256 - 7 days`.
* An external call is a transaction: it either returns a new state plus
  the emitted events, or reverts, in which case the observable contract
  state is exactly the pre-call state (EVM revert semantics).  This is
  captured by `Except`-valued call functions plus `execCall`, which keeps
  the old state on error.
* The Solidity mapping `assetScores` defaults to the all-zero struct, and
  the contract itself detects absence via `timestamp == 0`; the model
  stores a total function defaulting to `zeroRiskScore`.
* `nonReentrant` is a no-op in this sequential model.
-/

namespace Aegis

/-- `MIN_ITERATIONS` constant of `AegisRiskManager`. -/
def MIN_ITERATIONS : Nat := 5000

/-- `MAX_LTV_BPS` constant of `AegisRiskManager` (100% = 10000 bps). -/
def MAX_LTV_BPS : Nat := 10000

/-- `SCORE_VALIDITY_PERIOD` constant: 7 days in seconds. -/
def SCORE_VALIDITY_PERIOD : Nat := 604800

/-- `2 ^ 256`, the modulus of `uint256`. -/
def UINT256_MOD : Nat := 2 ^ 256

/-- The `RiskScore` struct of `AegisRiskManager`. -/
structure RiskScore where
  varScore : Nat
  safeLTV : Nat
  timestamp : Nat
  teeTaskId : Nat
  iterations : Nat
deriving DecidableEq

/-- Default value of the `assetScores` mapping (Solidity zero struct). -/
def zeroRiskScore : RiskScore := ⟨0, 0, 0, 0, 0⟩

/-- The `BulkScoreData` struct of `AegisRiskManager`. -/
structure BulkScoreData where
  assetId : Nat
  varScore : Nat
  safeLTV : Nat
deriving DecidableEq

/-- Contract storage: `Ownable` owner, the TEE oracle address, and the
`owner => assetId => RiskScore` mapping. -/
structure RegistryState where
  owner : Nat
  teeOracle : Nat
  assetScores : Nat → Nat → RiskScore

/-- The custom errors of `AegisRiskManager`, the `Ownable` authorization
error, and the Solidity `^0.8` checked-arithmetic panic. -/
inductive RegistryError where
  | UnauthorizedOracle
  | InvalidVaRScore
  | InvalidLTV
  | InsufficientIterations
  | EmptyBulkData
  | ZeroAddress
  | ScoreExpired
  | OwnableUnauthorizedAccount
  | ArithmeticOverflow
deriving DecidableEq

/-- The events of `AegisRiskManager`. -/
inductive RegistryEvent where
  | RiskScoreUpdated (owner assetId varScore safeLTV teeTaskId : Nat)
  | BulkScoresSubmitted (owner count teeTaskId : Nat)
  | TEEOracleUpdated (oldOracle newOracle : Nat)
deriving DecidableEq

/-- Write one slot of the `assetScores` mapping. -/
def RegistryState.store (s : RegistryState) (o a : Nat) (r : RiskScore) :
    RegistryState :=
  { s with assetScores := fun o' a' =>
      if o' = o ∧ a' = a then r else s.assetScores o' a' }

/-- State produced by the contract constructor (`_teeOracle ≠ 0` is checked
there; we only ever instantiate it with a nonzero oracle). -/
def deployedRegistry (owner teeOracle : Nat) : RegistryState :=
  ⟨owner, teeOracle, fun _ _ => zeroRiskScore⟩

/-- `_validateAndStoreScore`: bounds checks, then overwrite the record with
`timestamp = block.timestamp`. -/
def _validateAndStoreScore (s : RegistryState)
    (owner assetId varScore safeLTV teeTaskId iterations blockTimestamp : Nat) :
    Except RegistryError RegistryState :=
  if MAX_LTV_BPS < varScore then .error .InvalidVaRScore
  else if MAX_LTV_BPS < safeLTV then .error .InvalidLTV
  else if iterations < MIN_ITERATIONS then .error .InsufficientIterations
  else .ok (s.store owner assetId
      ⟨varScore, safeLTV, blockTimestamp, teeTaskId, iterations⟩)

/-- `submitRiskScore` (with the `onlyTEE` modifier inlined). -/
def submitRiskScore (s : RegistryState)
    (msgSender owner assetId varScore safeLTV teeTaskId iterations
      blockTimestamp : Nat) :
    Except RegistryError (RegistryState × List RegistryEvent) :=
  if msgSender ≠ s.teeOracle then .error .UnauthorizedOracle
  else
    match _validateAndStoreScore s owner assetId varScore safeLTV teeTaskId
        iterations blockTimestamp with
    | .error e => .error e
    | .ok s' =>
        .ok (s', [.RiskScoreUpdated owner assetId varScore safeLTV teeTaskId])

/-- The loop body of `submitBulkRiskScores`: validate-and-store each tuple in
order, emitting one `RiskScoreUpdated` per tuple.  An error anywhere
propagates (the enclosing transaction reverts). -/
def storeBulkScores (s : RegistryState) (owner : Nat)
    (scores : List BulkScoreData) (teeTaskId iterations blockTimestamp : Nat) :
    Except RegistryError (RegistryState × List RegistryEvent) :=
  match scores with
  | [] => .ok (s, [])
  | d :: rest =>
    match _validateAndStoreScore s owner d.assetId d.varScore d.safeLTV
        teeTaskId iterations blockTimestamp with
    | .error e => .error e
    | .ok s1 =>
      match storeBulkScores s1 owner rest teeTaskId iterations blockTimestamp with
      | .error e => .error e
      | .ok (s2, evs) =>
          .ok (s2,
            .RiskScoreUpdated owner d.assetId d.varScore d.safeLTV teeTaskId
              :: evs)

/-- `submitBulkRiskScores` (with the `onlyTEE` modifier inlined): empty-batch
and iteration checks up front, then the storage loop, then the aggregate
`BulkScoresSubmitted` event. -/
def submitBulkRiskScores (s : RegistryState) (msgSender owner : Nat)
    (scores : List BulkScoreData) (teeTaskId iterations blockTimestamp : Nat) :
    Except RegistryError (RegistryState × List RegistryEvent) :=
  if msgSender ≠ s.teeOracle then .error .UnauthorizedOracle
  else if scores = [] then .error .EmptyBulkData
  else if iterations < MIN_ITERATIONS then .error .InsufficientIterations
  else
    match storeBulkScores s owner scores teeTaskId iterations blockTimestamp with
    | .error e => .error e
    | .ok (s', evs) =>
        .ok (s', evs ++ [.BulkScoresSubmitted owner scores.length teeTaskId])

/-- `setTEEOracle` (with the `onlyOwner` modifier inlined). -/
def setTEEOracle (s : RegistryState) (msgSender newOracle : Nat) :
    Except RegistryError (RegistryState × List RegistryEvent) :=
  if msgSender ≠ s.owner then .error .OwnableUnauthorizedAccount
  else if newOracle = 0 then .error .ZeroAddress
  else .ok ({ s with teeOracle := newOracle },
      [.TEEOracleUpdated s.teeOracle newOracle])

/-- `getSafeLTV` view. -/
def getSafeLTV (s : RegistryState) (owner assetId blockTimestamp : Nat) : Nat :=
  let score := s.assetScores owner assetId
  if score.timestamp = 0 then 0
  else if score.timestamp + SCORE_VALIDITY_PERIOD < blockTimestamp then 0
  else score.safeLTV

/-- `getVaRScore` view. -/
def getVaRScore (s : RegistryState) (owner assetId blockTimestamp : Nat) : Nat :=
  let score := s.assetScores owner assetId
  if score.timestamp = 0 then 0
  else if score.timestamp + SCORE_VALIDITY_PERIOD < blockTimestamp then 0
  else score.varScore

/-- `isScoreValid` view: inclusive comparison at the validity boundary. -/
def isScoreValid (s : RegistryState) (owner assetId blockTimestamp : Nat) :
    Bool :=
  let score := s.assetScores owner assetId
  if score.timestamp = 0 then false
  else decide (blockTimestamp ≤ score.timestamp + SCORE_VALIDITY_PERIOD)

/-- `getFullRiskScore` view: returns the raw stored struct, with no expiry
filtering. -/
def getFullRiskScore (s : RegistryState) (owner assetId : Nat) : RiskScore :=
  s.assetScores owner assetId

/-- `calculateMaxBorrow` view.  The `collateralValue * score.safeLTV`
multiplication is `uint256` checked arithmetic and reverts on overflow. -/
def calculateMaxBorrow (s : RegistryState)
    (owner assetId collateralValue blockTimestamp : Nat) :
    Except RegistryError Nat :=
  let score := s.assetScores owner assetId
  if score.timestamp = 0 then .error .ScoreExpired
  else if score.timestamp + SCORE_VALIDITY_PERIOD < blockTimestamp then
    .error .ScoreExpired
  else if UINT256_MOD ≤ collateralValue * score.safeLTV then
    .error .ArithmeticOverflow
  else .ok (collateralValue * score.safeLTV / MAX_LTV_BPS)

/-- The external write surface of the registry, as transaction payloads. -/
inductive RegistryCall where
  | submitScore (msgSender owner assetId varScore safeLTV teeTaskId
      iterations : Nat)
  | submitBulk (msgSender owner : Nat) (scores : List BulkScoreData)
      (teeTaskId iterations : Nat)
  | rotateOracle (msgSender newOracle : Nat)

/-- Dispatch one external call. -/
def applyCall (s : RegistryState) (c : RegistryCall) (blockTimestamp : Nat) :
    Except RegistryError (RegistryState × List RegistryEvent) :=
  match c with
  | .submitScore msgSender owner assetId varScore safeLTV teeTaskId iterations =>
      submitRiskScore s msgSender owner assetId varScore safeLTV teeTaskId
        iterations blockTimestamp
  | .submitBulk msgSender owner scores teeTaskId iterations =>
      submitBulkRiskScores s msgSender owner scores teeTaskId iterations
        blockTimestamp
  | .rotateOracle msgSender newOracle => setTEEOracle s msgSender newOracle

/-- Transaction semantics of one call: a revert leaves the state unchanged. -/
def execCall (s : RegistryState) (c : RegistryCall) (blockTimestamp : Nat) :
    RegistryState :=
  match applyCall s c blockTimestamp with
  | .ok (s', _) => s'
  | .error _ => s

/-- Run a sequence of timestamped external calls. -/
def execTrace (s : RegistryState) : List (RegistryCall × Nat) → RegistryState
  | [] => s
  | (c, t) :: rest => execTrace (execCall s c t) rest

/-- The stored-record invariant of claim C1: every slot that holds something
other than the zero struct satisfies both bps bounds and the iteration
floor. -/
def ScoresBounded (s : RegistryState) : Prop :=
  ∀ o a, s.assetScores o a ≠ zeroRiskScore →
    (s.assetScores o a).varScore ≤ MAX_LTV_BPS ∧
    (s.assetScores o a).safeLTV ≤ MAX_LTV_BPS ∧
    MIN_ITERATIONS ≤ (s.assetScores o a).iterations

lemma scoresBounded_store {s : RegistryState} {o a : Nat} {r : RiskScore}
    (hs : ScoresBounded s)
    (hr : r.varScore ≤ MAX_LTV_BPS ∧ r.safeLTV ≤ MAX_LTV_BPS ∧
      MIN_ITERATIONS ≤ r.iterations) :
    ScoresBounded (s.store o a r) := by
  intro o' a' hne
  simp only [RegistryState.store] at hne ⊢
  by_cases hk : o' = o ∧ a' = a
  · simp only [if_pos hk] at hne ⊢
    exact hr
  · simp only [if_neg hk] at hne ⊢
    exact hs o' a' hne

lemma scoresBounded_validateAndStore {s s' : RegistryState}
    {owner assetId varScore safeLTV teeTaskId iterations blockTimestamp : Nat}
    (h : _validateAndStoreScore s owner assetId varScore safeLTV teeTaskId
      iterations blockTimestamp = .ok s')
    (hs : ScoresBounded s) : ScoresBounded s' := by
  unfold _validateAndStoreScore at h
  split at h
  · simp at h
  · split at h
    · simp at h
    · split at h
      · simp at h
      · cases h
        refine scoresBounded_store hs ⟨?_, ?_, ?_⟩
        · show varScore ≤ MAX_LTV_BPS
          omega
        · show safeLTV ≤ MAX_LTV_BPS
          omega
        · show MIN_ITERATIONS ≤ iterations
          omega

lemma scoresBounded_storeBulk {s s' : RegistryState} {owner : Nat}
    {scores : List BulkScoreData}
    {teeTaskId iterations blockTimestamp : Nat} {evs : List RegistryEvent}
    (h : storeBulkScores s owner scores teeTaskId iterations blockTimestamp =
      .ok (s', evs))
    (hs : ScoresBounded s) : ScoresBounded s' := by
  induction scores generalizing s evs with
  | nil => unfold storeBulkScores at h; cases h; exact hs
  | cons d rest ih =>
    unfold storeBulkScores at h
    split at h
    · simp at h
    · rename_i s1 heq
      split at h
      · simp at h
      · rename_i s2 evs2 heq2
        cases h
        exact ih heq2 (scoresBounded_validateAndStore heq hs)

lemma scoresBounded_execCall {s : RegistryState} (c : RegistryCall)
    (blockTimestamp : Nat) (hs : ScoresBounded s) :
    ScoresBounded (execCall s c blockTimestamp) := by
  unfold execCall
  cases hc : applyCall s c blockTimestamp with
  | error e => exact hs
  | ok p =>
    obtain ⟨s', evs⟩ := p
    cases c with
    | submitScore msgSender owner assetId varScore safeLTV teeTaskId iterations =>
      simp only [applyCall, submitRiskScore] at hc
      split at hc
      · simp at hc
      · split at hc
        · simp at hc
        · rename_i s1 heq
          cases hc
          exact scoresBounded_validateAndStore heq hs
    | submitBulk msgSender owner scores teeTaskId iterations =>
      simp only [applyCall, submitBulkRiskScores] at hc
      split at hc
      · simp at hc
      · split at hc
        · simp at hc
        · split at hc
          · simp at hc
          · split at hc
            · simp at hc
            · rename_i s2 evs2 heq
              cases hc
              exact scoresBounded_storeBulk heq hs
    | rotateOracle msgSender newOracle =>
      simp only [applyCall, setTEEOracle] at hc
      split at hc
      · simp at hc
      · split at hc
        · simp at hc
        · cases hc
          exact hs

lemma scoresBounded_execTrace (s : RegistryState)
    (tr : List (RegistryCall × Nat)) (hs : ScoresBounded s) :
    ScoresBounded (execTrace s tr) := by
  induction tr generalizing s with
  | nil => exact hs
  | cons ct rest ih =>
    obtain ⟨c, t⟩ := ct
    exact ih _ (scoresBounded_execCall c t hs)

lemma validateAndStore_error (s : RegistryState)
    (owner assetId varScore safeLTV teeTaskId iterations blockTimestamp : Nat)
    (h : MAX_LTV_BPS < varScore ∨ MAX_LTV_BPS < safeLTV ∨
      iterations < MIN_ITERATIONS) :
    ∃ e, _validateAndStoreScore s owner assetId varScore safeLTV teeTaskId
      iterations blockTimestamp = .error e := by
  unfold _validateAndStoreScore
  split_ifs with h1 h2 h3
  · exact ⟨_, rfl⟩
  · exact ⟨_, rfl⟩
  · exact ⟨_, rfl⟩
  · omega

lemma applyCall_submitScore_error (s : RegistryState)
    (msgSender owner assetId varScore safeLTV teeTaskId iterations
      blockTimestamp : Nat)
    (h : MAX_LTV_BPS < varScore ∨ MAX_LTV_BPS < safeLTV ∨
      iterations < MIN_ITERATIONS) :
    ∃ e, applyCall s
      (.submitScore msgSender owner assetId varScore safeLTV teeTaskId
        iterations) blockTimestamp = .error e := by
  simp only [applyCall, submitRiskScore]
  split
  · exact ⟨_, rfl⟩
  · obtain ⟨e, he⟩ := validateAndStore_error s owner assetId varScore safeLTV
      teeTaskId iterations blockTimestamp h
    rw [he]
    exact ⟨e, rfl⟩

lemma submitScore_rejects_out_of_range (s : RegistryState)
    (msgSender owner assetId varScore safeLTV teeTaskId iterations
      blockTimestamp : Nat)
    (h : MAX_LTV_BPS < varScore ∨ MAX_LTV_BPS < safeLTV ∨
      iterations < MIN_ITERATIONS) :
    execCall s
      (.submitScore msgSender owner assetId varScore safeLTV teeTaskId
        iterations) blockTimestamp = s := by
  obtain ⟨e, he⟩ := applyCall_submitScore_error s msgSender owner assetId
    varScore safeLTV teeTaskId iterations blockTimestamp h
  unfold execCall
  rw [he]

/-- Claim C1: every stored record in any state reachable from a bounded
state satisfies `varScore ≤ 10000`, `safeLTV ≤ 10000`, `iterations ≥ 5000`;
a `submitScore` with an out-of-range bps field or insufficient iterations
reverts with the corresponding error and leaves the whole registry state —
in particular the previously stored record for that key — unchanged. -/
theorem registry_stored_records_bounded :
    (∀ (s0 : RegistryState) (tr : List (RegistryCall × Nat)),
      ScoresBounded s0 → ScoresBounded (execTrace s0 tr)) ∧
    (∀ (s : RegistryState)
      (msgSender owner assetId varScore safeLTV teeTaskId iterations
        blockTimestamp : Nat),
      (MAX_LTV_BPS < varScore ∨ MAX_LTV_BPS < safeLTV ∨
        iterations < MIN_ITERATIONS) →
      execCall s
        (.submitScore msgSender owner assetId varScore safeLTV teeTaskId
          iterations) blockTimestamp = s) ∧
    (∀ (s : RegistryState)
      (owner assetId varScore safeLTV teeTaskId iterations blockTimestamp : Nat),
      MAX_LTV_BPS < varScore →
      applyCall s
        (.submitScore s.teeOracle owner assetId varScore safeLTV teeTaskId
          iterations) blockTimestamp = .error .InvalidVaRScore) ∧
    (∀ (s : RegistryState)
      (owner assetId varScore safeLTV teeTaskId iterations blockTimestamp : Nat),
      varScore ≤ MAX_LTV_BPS → MAX_LTV_BPS < safeLTV →
      applyCall s
        (.submitScore s.teeOracle owner assetId varScore safeLTV teeTaskId
          iterations) blockTimestamp = .error .InvalidLTV) ∧
    (∀ (s : RegistryState)
      (owner assetId varScore safeLTV teeTaskId iterations blockTimestamp : Nat),
      varScore ≤ MAX_LTV_BPS → safeLTV ≤ MAX_LTV_BPS →
      iterations < MIN_ITERATIONS →
      applyCall s
        (.submitScore s.teeOracle owner assetId varScore safeLTV teeTaskId
          iterations) blockTimestamp = .error .InsufficientIterations) := by
  refine ⟨scoresBounded_execTrace, submitScore_rejects_out_of_range, ?_, ?_, ?_⟩
  · intro s owner assetId varScore safeLTV teeTaskId iterations blockTimestamp h
    simp only [applyCall, submitRiskScore, _validateAndStoreScore]
    rw [if_neg (by simp), if_pos h]
  · intro s owner assetId varScore safeLTV teeTaskId iterations blockTimestamp
      h1 h2
    simp only [applyCall, submitRiskScore, _validateAndStoreScore]
    rw [if_neg (by simp), if_neg (by omega), if_pos h2]
  · intro s owner assetId varScore safeLTV teeTaskId iterations blockTimestamp
      h1 h2 h3
    simp only [applyCall, submitRiskScore, _validateAndStoreScore]
    rw [if_neg (by simp), if_neg (by omega), if_neg (by omega), if_pos h3]

/-- Witness for C1 at concrete inputs: a fresh registry, one good write and
one rejected over-range write keep the invariant, and the rejected write
leaves the state unchanged. -/
theorem registry_stored_records_bounded_witness :
    ScoresBounded (execTrace (deployedRegistry 2 1)
      [(.submitScore 1 5 7 1500 7200 42 5000, 100),
       (.submitScore 1 5 7 20000 7200 43 5000, 200)]) ∧
    execCall (deployedRegistry 2 1)
      (.submitScore 1 5 7 20000 7200 43 5000) 200 = deployedRegistry 2 1 := by
  constructor
  · exact registry_stored_records_bounded.1 (deployedRegistry 2 1) _
      (fun o a h => absurd rfl h)
  · exact registry_stored_records_bounded.2.1 (deployedRegistry 2 1)
      1 5 7 20000 7200 43 5000 200 (Or.inl (by decide))

lemma validateAndStore_ok (s : RegistryState)
    (owner assetId varScore safeLTV teeTaskId iterations blockTimestamp : Nat)
    (h1 : varScore ≤ MAX_LTV_BPS) (h2 : safeLTV ≤ MAX_LTV_BPS)
    (h3 : MIN_ITERATIONS ≤ iterations) :
    _validateAndStoreScore s owner assetId varScore safeLTV teeTaskId
      iterations blockTimestamp =
      .ok (s.store owner assetId
        ⟨varScore, safeLTV, blockTimestamp, teeTaskId, iterations⟩) := by
  unfold _validateAndStoreScore
  rw [if_neg (by omega), if_neg (by omega), if_neg (by omega)]

lemma validateAndStore_ok_inv {s s1 : RegistryState}
    {owner assetId varScore safeLTV teeTaskId iterations blockTimestamp : Nat}
    (h : _validateAndStoreScore s owner assetId varScore safeLTV teeTaskId
      iterations blockTimestamp = .ok s1) :
    s1 = s.store owner assetId
      ⟨varScore, safeLTV, blockTimestamp, teeTaskId, iterations⟩ := by
  unfold _validateAndStoreScore at h
  split_ifs at h with h1 h2 h3
  cases h
  rfl

lemma submitScore_ok (s : RegistryState)
    (owner assetId varScore safeLTV teeTaskId iterations blockTimestamp : Nat)
    (h1 : varScore ≤ MAX_LTV_BPS) (h2 : safeLTV ≤ MAX_LTV_BPS)
    (h3 : MIN_ITERATIONS ≤ iterations) :
    applyCall s
      (.submitScore s.teeOracle owner assetId varScore safeLTV teeTaskId
        iterations) blockTimestamp =
      .ok (s.store owner assetId
          ⟨varScore, safeLTV, blockTimestamp, teeTaskId, iterations⟩,
        [.RiskScoreUpdated owner assetId varScore safeLTV teeTaskId]) := by
  simp only [applyCall, submitRiskScore]
  rw [if_neg (by simp), validateAndStore_ok s owner assetId varScore safeLTV
    teeTaskId iterations blockTimestamp h1 h2 h3]

lemma setTEEOracle_ok (s : RegistryState) (newOracle : Nat)
    (h : newOracle ≠ 0) :
    setTEEOracle s s.owner newOracle =
      .ok ({ s with teeOracle := newOracle },
        [.TEEOracleUpdated s.teeOracle newOracle]) := by
  unfold setTEEOracle
  rw [if_neg (by simp), if_neg h]

lemma execCall_rotateOracle (s : RegistryState) (newOracle t : Nat)
    (h : newOracle ≠ 0) :
    execCall s (.rotateOracle s.owner newOracle) t =
      { s with teeOracle := newOracle } := by
  unfold execCall
  simp only [applyCall]
  rw [setTEEOracle_ok s newOracle h]

/-- Claim C2: `submitScore` and `submitBulk` reject every caller other than
the current TEE oracle with the authorization error; `setTEEOracle` succeeds
only for the `Ownable` owner, rejects the zero address, and emits
`TEEOracleUpdated(old, new)`; immediately after a rotation from `A` to a
distinct nonzero `B`, a write by `A` is rejected and a write by `B` (with
in-range arguments) is accepted. -/
theorem oracle_authorization_and_rotation :
    (∀ (s : RegistryState)
      (msgSender owner assetId varScore safeLTV teeTaskId iterations
        blockTimestamp : Nat),
      msgSender ≠ s.teeOracle →
      applyCall s
        (.submitScore msgSender owner assetId varScore safeLTV teeTaskId
          iterations) blockTimestamp = .error .UnauthorizedOracle) ∧
    (∀ (s : RegistryState) (msgSender owner : Nat)
      (scores : List BulkScoreData) (teeTaskId iterations blockTimestamp : Nat),
      msgSender ≠ s.teeOracle →
      applyCall s (.submitBulk msgSender owner scores teeTaskId iterations)
        blockTimestamp = .error .UnauthorizedOracle) ∧
    (∀ (s : RegistryState) (msgSender newOracle blockTimestamp : Nat)
      (p : RegistryState × List RegistryEvent),
      applyCall s (.rotateOracle msgSender newOracle) blockTimestamp = .ok p →
      msgSender = s.owner) ∧
    (∀ (s : RegistryState) (blockTimestamp : Nat),
      applyCall s (.rotateOracle s.owner 0) blockTimestamp =
        .error .ZeroAddress) ∧
    (∀ (s : RegistryState) (newOracle blockTimestamp : Nat), newOracle ≠ 0 →
      applyCall s (.rotateOracle s.owner newOracle) blockTimestamp =
        .ok ({ s with teeOracle := newOracle },
          [.TEEOracleUpdated s.teeOracle newOracle])) ∧
    (∀ (s : RegistryState)
      (B owner assetId varScore safeLTV teeTaskId iterations t1 t2 : Nat),
      s.teeOracle ≠ B → B ≠ 0 →
      (applyCall (execCall s (.rotateOracle s.owner B) t1)
        (.submitScore s.teeOracle owner assetId varScore safeLTV teeTaskId
          iterations) t2 = .error .UnauthorizedOracle) ∧
      (varScore ≤ MAX_LTV_BPS → safeLTV ≤ MAX_LTV_BPS →
        MIN_ITERATIONS ≤ iterations →
        ∃ s' evs, applyCall (execCall s (.rotateOracle s.owner B) t1)
          (.submitScore B owner assetId varScore safeLTV teeTaskId iterations)
          t2 = .ok (s', evs))) := by
  refine ⟨?_, ?_, ?_, ?_, ?_, ?_⟩
  · intro s msgSender owner assetId varScore safeLTV teeTaskId iterations
      blockTimestamp h
    simp only [applyCall, submitRiskScore]
    rw [if_pos h]
  · intro s msgSender owner scores teeTaskId iterations blockTimestamp h
    simp only [applyCall, submitBulkRiskScores]
    rw [if_pos h]
  · intro s msgSender newOracle blockTimestamp p h
    simp only [applyCall, setTEEOracle] at h
    split at h
    · simp at h
    · split at h
      · simp at h
      · rename_i h1 h2
        omega
  · intro s blockTimestamp
    simp [applyCall, setTEEOracle]
  · intro s newOracle blockTimestamp h
    simp only [applyCall]
    exact setTEEOracle_ok s newOracle h
  · intro s B owner assetId varScore safeLTV teeTaskId iterations t1 t2 hAB hB0
    rw [execCall_rotateOracle s B t1 hB0]
    constructor
    · simp only [applyCall, submitRiskScore]
      rw [if_pos]
      exact hAB
    · intro h1 h2 h3
      exact ⟨_, _, submitScore_ok { s with teeOracle := B } owner assetId
        varScore safeLTV teeTaskId iterations t2 h1 h2 h3⟩

/-- Witness for C2: on a fresh registry with oracle `1` and owner `2`, a
stranger's write is rejected; after the owner rotates the oracle to `3`, a
write by the old oracle `1` is rejected and a write by `3` is accepted. -/
theorem oracle_authorization_and_rotation_witness :
    applyCall (deployedRegistry 2 1) (.submitScore 9 5 7 1500 7200 42 5000)
      100 = .error .UnauthorizedOracle ∧
    applyCall (deployedRegistry 2 1) (.rotateOracle 2 0) 50 =
      .error .ZeroAddress ∧
    applyCall (execCall (deployedRegistry 2 1) (.rotateOracle 2 3) 50)
      (.submitScore 1 5 7 1500 7200 42 5000) 100 =
      .error .UnauthorizedOracle ∧
    (∃ s' evs, applyCall (execCall (deployedRegistry 2 1) (.rotateOracle 2 3)
      50) (.submitScore 3 5 7 1500 7200 42 5000) 100 = .ok (s', evs)) := by
  refine ⟨?_, ?_, ?_, ?_⟩
  · exact oracle_authorization_and_rotation.1 (deployedRegistry 2 1)
      9 5 7 1500 7200 42 5000 100 (by decide)
  · exact oracle_authorization_and_rotation.2.2.2.1 (deployedRegistry 2 1) 50
  · exact (oracle_authorization_and_rotation.2.2.2.2.2 (deployedRegistry 2 1)
      3 5 7 1500 7200 42 5000 50 100 (by decide) (by decide)).1
  · exact (oracle_authorization_and_rotation.2.2.2.2.2 (deployedRegistry 2 1)
      3 5 7 1500 7200 42 5000 50 100 (by decide) (by decide)).2
      (by decide) (by decide) (by decide)

lemma storeBulk_error_of_bad (owner teeTaskId iterations blockTimestamp : Nat)
    (d : BulkScoreData)
    (hbad : MAX_LTV_BPS < d.varScore ∨ MAX_LTV_BPS < d.safeLTV) :
    ∀ (scores : List BulkScoreData) (s : RegistryState), d ∈ scores →
    ∃ e, storeBulkScores s owner scores teeTaskId iterations blockTimestamp =
      .error e := by
  intro scores
  induction scores with
  | nil => intro s hd; cases hd
  | cons x rest ih =>
    intro s hd
    cases hv : _validateAndStoreScore s owner x.assetId x.varScore x.safeLTV
        teeTaskId iterations blockTimestamp with
    | error e =>
      refine ⟨e, ?_⟩
      simp only [storeBulkScores, hv]
    | ok s1 =>
      rcases List.mem_cons.mp hd with heq | hdr
      · exfalso
        subst heq
        unfold _validateAndStoreScore at hv
        split_ifs at hv with h1 h2 h3
        omega
      · obtain ⟨e, he⟩ := ih s1 hdr
        refine ⟨e, ?_⟩
        simp only [storeBulkScores, hv, he]

lemma storeBulk_ok (owner teeTaskId iterations blockTimestamp : Nat)
    (h3 : MIN_ITERATIONS ≤ iterations) :
    ∀ (scores : List BulkScoreData) (s : RegistryState),
    (∀ d ∈ scores, d.varScore ≤ MAX_LTV_BPS ∧ d.safeLTV ≤ MAX_LTV_BPS) →
    ∃ s', storeBulkScores s owner scores teeTaskId iterations blockTimestamp =
      .ok (s', scores.map fun d =>
        RegistryEvent.RiskScoreUpdated owner d.assetId d.varScore d.safeLTV
          teeTaskId) := by
  intro scores
  induction scores with
  | nil => intro s _; exact ⟨s, rfl⟩
  | cons x rest ih =>
    intro s h
    have hx := h x (List.mem_cons_self x rest)
    obtain ⟨s', hs'⟩ := ih
      (s.store owner x.assetId
        ⟨x.varScore, x.safeLTV, blockTimestamp, teeTaskId, iterations⟩)
      (fun d hd => h d (List.mem_cons_of_mem x hd))
    refine ⟨s', ?_⟩
    simp only [storeBulkScores,
      validateAndStore_ok s owner x.assetId x.varScore x.safeLTV teeTaskId
        iterations blockTimestamp hx.1 hx.2 h3,
      hs', List.map_cons]

lemma storeBulk_lookup_other (owner teeTaskId iterations blockTimestamp : Nat) :
    ∀ (scores : List BulkScoreData) (s s' : RegistryState)
      (evs : List RegistryEvent),
    storeBulkScores s owner scores teeTaskId iterations blockTimestamp =
      .ok (s', evs) →
    ∀ o a, ¬(o = owner ∧ a ∈ scores.map BulkScoreData.assetId) →
    s'.assetScores o a = s.assetScores o a := by
  intro scores
  induction scores with
  | nil =>
    intro s s' evs h o a _
    unfold storeBulkScores at h
    cases h
    rfl
  | cons x rest ih =>
    intro s s' evs h o a hna
    cases hv : _validateAndStoreScore s owner x.assetId x.varScore x.safeLTV
        teeTaskId iterations blockTimestamp with
    | error e => simp [storeBulkScores, hv] at h
    | ok s1 =>
      cases hrest : storeBulkScores s1 owner rest teeTaskId iterations
          blockTimestamp with
      | error e => simp [storeBulkScores, hv, hrest] at h
      | ok p =>
        obtain ⟨s2, evs2⟩ := p
        simp only [storeBulkScores, hv, hrest] at h
        cases h
        have htail : s'.assetScores o a = s1.assetScores o a :=
          ih s1 s' evs2 hrest o a
            (fun hc => hna ⟨hc.1, by
              simp only [List.map_cons, List.mem_cons]
              exact Or.inr hc.2⟩)
        rw [htail, validateAndStore_ok_inv hv]
        simp only [RegistryState.store]
        rw [if_neg]
        rintro ⟨ho, ha⟩
        exact hna ⟨ho, by simp [List.map_cons, List.mem_cons, ha]⟩

lemma storeBulk_lookup_mem (owner teeTaskId iterations blockTimestamp : Nat) :
    ∀ (scores : List BulkScoreData) (s s' : RegistryState)
      (evs : List RegistryEvent),
    storeBulkScores s owner scores teeTaskId iterations blockTimestamp =
      .ok (s', evs) →
    (scores.map BulkScoreData.assetId).Nodup →
    ∀ d ∈ scores, s'.assetScores owner d.assetId =
      ⟨d.varScore, d.safeLTV, blockTimestamp, teeTaskId, iterations⟩ := by
  intro scores
  induction scores with
  | nil => intro s s' evs _ _ d hd; cases hd
  | cons x rest ih =>
    intro s s' evs h hnd d hd
    cases hv : _validateAndStoreScore s owner x.assetId x.varScore x.safeLTV
        teeTaskId iterations blockTimestamp with
    | error e => simp [storeBulkScores, hv] at h
    | ok s1 =>
      cases hrest : storeBulkScores s1 owner rest teeTaskId iterations
          blockTimestamp with
      | error e => simp [storeBulkScores, hv, hrest] at h
      | ok p =>
        obtain ⟨s2, evs2⟩ := p
        simp only [storeBulkScores, hv, hrest] at h
        cases h
        rw [List.map_cons, List.nodup_cons] at hnd
        rcases List.mem_cons.mp hd with heqd | hdr
        · subst heqd
          have hn : s'.assetScores owner d.assetId =
              s1.assetScores owner d.assetId :=
            storeBulk_lookup_other owner teeTaskId iterations blockTimestamp
              rest s1 s' evs2 hrest owner d.assetId
              (fun hc => hnd.1 hc.2)
          rw [hn, validateAndStore_ok_inv hv]
          simp [RegistryState.store]
        · exact ih s1 s' evs2 hrest hnd.2 d hdr

lemma applyCall_submitBulk_error (s : RegistryState)
    (msgSender owner : Nat) (scores : List BulkScoreData)
    (teeTaskId iterations blockTimestamp : Nat) (d : BulkScoreData)
    (hd : d ∈ scores)
    (hbad : MAX_LTV_BPS < d.varScore ∨ MAX_LTV_BPS < d.safeLTV) :
    ∃ e, applyCall s (.submitBulk msgSender owner scores teeTaskId iterations)
      blockTimestamp = .error e := by
  simp only [applyCall, submitBulkRiskScores]
  split_ifs with h1 h2 h3
  · exact ⟨_, rfl⟩
  · exact ⟨_, rfl⟩
  · exact ⟨_, rfl⟩
  · obtain ⟨e, he⟩ := storeBulk_error_of_bad owner teeTaskId iterations
      blockTimestamp d hbad scores s hd
    rw [he]
    exact ⟨e, rfl⟩

/-- Claim C3: `submitBulk` rejects an empty batch with the empty-batch
error; a batch containing any tuple with an out-of-range bps field reverts
as a whole, leaving the registry state exactly as before the call; a fully
in-range batch from the oracle succeeds, emits one `RiskScoreUpdated` per
tuple followed by one aggregate `BulkScoresSubmitted`, and (for distinct
asset ids) stores every tuple with the single shared block timestamp. -/
theorem submitBulk_all_or_nothing :
    (∀ (s : RegistryState) (owner teeTaskId iterations blockTimestamp : Nat),
      applyCall s (.submitBulk s.teeOracle owner [] teeTaskId iterations)
        blockTimestamp = .error .EmptyBulkData) ∧
    (∀ (s : RegistryState) (msgSender owner : Nat)
      (scores : List BulkScoreData)
      (teeTaskId iterations blockTimestamp : Nat) (d : BulkScoreData),
      d ∈ scores →
      (MAX_LTV_BPS < d.varScore ∨ MAX_LTV_BPS < d.safeLTV) →
      execCall s (.submitBulk msgSender owner scores teeTaskId iterations)
        blockTimestamp = s) ∧
    (∀ (s : RegistryState) (owner : Nat) (scores : List BulkScoreData)
      (teeTaskId iterations blockTimestamp : Nat),
      scores ≠ [] → MIN_ITERATIONS ≤ iterations →
      (∀ d ∈ scores, d.varScore ≤ MAX_LTV_BPS ∧ d.safeLTV ≤ MAX_LTV_BPS) →
      ∃ s', applyCall s
          (.submitBulk s.teeOracle owner scores teeTaskId iterations)
          blockTimestamp =
        .ok (s', (scores.map fun d =>
            RegistryEvent.RiskScoreUpdated owner d.assetId d.varScore
              d.safeLTV teeTaskId) ++
          [.BulkScoresSubmitted owner scores.length teeTaskId]) ∧
        ((scores.map BulkScoreData.assetId).Nodup →
          ∀ d ∈ scores, s'.assetScores owner d.assetId =
            ⟨d.varScore, d.safeLTV, blockTimestamp, teeTaskId, iterations⟩)) := by
  refine ⟨?_, ?_, ?_⟩
  · intro s owner teeTaskId iterations blockTimestamp
    simp [applyCall, submitBulkRiskScores]
  · intro s msgSender owner scores teeTaskId iterations blockTimestamp d hd hbad
    obtain ⟨e, he⟩ := applyCall_submitBulk_error s msgSender owner scores
      teeTaskId iterations blockTimestamp d hd hbad
    unfold execCall
    rw [he]
  · intro s owner scores teeTaskId iterations blockTimestamp hne hiter hgood
    simp only [applyCall, submitBulkRiskScores]
    rw [if_neg (by simp), if_neg hne, if_neg (by omega)]
    obtain ⟨s', hs'⟩ := storeBulk_ok owner teeTaskId iterations blockTimestamp
      hiter scores s hgood
    rw [hs']
    exact ⟨s', rfl, fun hnd d hd => storeBulk_lookup_mem owner teeTaskId
      iterations blockTimestamp scores s s' _ hs' hnd d hd⟩

/-- Witness for C3 at concrete batches: the empty batch rejects; a 3-tuple
batch whose middle tuple has `varScore = 10001` round-trips the state; a
2-tuple in-range batch succeeds with the per-tuple events, the aggregate
event, and both records stored at the shared timestamp. -/
theorem submitBulk_all_or_nothing_witness :
    applyCall (deployedRegistry 2 1) (.submitBulk 1 5 [] 42 5000) 77 =
      .error .EmptyBulkData ∧
    execCall (deployedRegistry 2 1)
      (.submitBulk 1 5 [⟨7, 1500, 7200⟩, ⟨8, 10001, 7200⟩, ⟨9, 1500, 7200⟩]
        42 5000) 77 = deployedRegistry 2 1 ∧
    (∃ s', applyCall (deployedRegistry 2 1)
        (.submitBulk 1 5 [⟨7, 1500, 7200⟩, ⟨8, 1600, 7000⟩] 42 5000) 77 =
      .ok (s', ([⟨7, 1500, 7200⟩, ⟨8, 1600, 7000⟩].map
          fun d : BulkScoreData =>
            RegistryEvent.RiskScoreUpdated 5 d.assetId d.varScore d.safeLTV
              42) ++ [.BulkScoresSubmitted 5 2 42]) ∧
      s'.assetScores 5 7 = ⟨1500, 7200, 77, 42, 5000⟩ ∧
      s'.assetScores 5 8 = ⟨1600, 7000, 77, 42, 5000⟩) := by
  refine ⟨?_, ?_, ?_⟩
  · exact submitBulk_all_or_nothing.1 (deployedRegistry 2 1) 5 42 5000 77
  · exact submitBulk_all_or_nothing.2.1 (deployedRegistry 2 1) 1 5
      [⟨7, 1500, 7200⟩, ⟨8, 10001, 7200⟩, ⟨9, 1500, 7200⟩] 42 5000 77
      ⟨8, 10001, 7200⟩ (by decide) (Or.inl (by decide))
  · obtain ⟨s', h1, h2⟩ := submitBulk_all_or_nothing.2.2 (deployedRegistry 2 1)
      5 [⟨7, 1500, 7200⟩, ⟨8, 1600, 7000⟩] 42 5000 77 (by decide) (by decide)
      (by decide)
    refine ⟨s', h1, ?_, ?_⟩
    · exact h2 (by decide) ⟨7, 1500, 7200⟩ (by decide)
    · exact h2 (by decide) ⟨8, 1600, 7000⟩ (by decide)

/-- A sample reachable state: oracle `1` wrote `(varScore 1500, safeLTV 7200,
taskId 42, iterations 5000)` for key `(5, 7)` at block time `100`. -/
def sampleStoredRegistry : RegistryState :=
  execCall (deployedRegistry 2 1) (.submitScore 1 5 7 1500 7200 42 5000) 100

/-- Counterexample to C4 as stated: at time `100 + 604800 + 1` the record for
`(5, 7)` is expired (`isScoreValid` is `false` and the scalar getters return
`0`), yet the `getFullRiskScore` read path still returns the stored record
verbatim rather than reporting it as absent. -/
theorem getFullRiskScore_exposes_expired_record :
    isScoreValid sampleStoredRegistry 5 7 604901 = false ∧
    getSafeLTV sampleStoredRegistry 5 7 604901 = 0 ∧
    getVaRScore sampleStoredRegistry 5 7 604901 = 0 ∧
    getFullRiskScore sampleStoredRegistry 5 7 = ⟨1500, 7200, 100, 42, 5000⟩ ∧
    getFullRiskScore sampleStoredRegistry 5 7 ≠ zeroRiskScore := by
  refine ⟨rfl, rfl, rfl, rfl, ?_⟩
  decide

/-- Claim C4 (amended): `getVaRScore`/`getSafeLTV` return `0` and
`isScoreValid` returns `false` when the record is absent (`timestamp = 0`)
or expired; validity is inclusive at `timestamp + SCORE_VALIDITY_PERIOD` and
false one second later; the scalar getters return the stored values exactly
when the record exists and is unexpired.  `getFullRiskScore`, by contrast,
returns the raw stored record with no expiry filtering. -/
theorem read_paths_report_validity (s : RegistryState) (o a now : Nat) :
    ((s.assetScores o a).timestamp = 0 →
      getVaRScore s o a now = 0 ∧ getSafeLTV s o a now = 0 ∧
      isScoreValid s o a now = false) ∧
    ((s.assetScores o a).timestamp ≠ 0 →
      (isScoreValid s o a now = true ↔
        now ≤ (s.assetScores o a).timestamp + SCORE_VALIDITY_PERIOD)) ∧
    ((s.assetScores o a).timestamp ≠ 0 →
      isScoreValid s o a
        ((s.assetScores o a).timestamp + SCORE_VALIDITY_PERIOD) = true) ∧
    ((s.assetScores o a).timestamp ≠ 0 →
      isScoreValid s o a
        ((s.assetScores o a).timestamp + SCORE_VALIDITY_PERIOD + 1) = false) ∧
    ((s.assetScores o a).timestamp ≠ 0 →
      now ≤ (s.assetScores o a).timestamp + SCORE_VALIDITY_PERIOD →
      getVaRScore s o a now = (s.assetScores o a).varScore ∧
      getSafeLTV s o a now = (s.assetScores o a).safeLTV) ∧
    ((s.assetScores o a).timestamp ≠ 0 →
      (s.assetScores o a).timestamp + SCORE_VALIDITY_PERIOD < now →
      getVaRScore s o a now = 0 ∧ getSafeLTV s o a now = 0) ∧
    getFullRiskScore s o a = s.assetScores o a := by
  refine ⟨?_, ?_, ?_, ?_, ?_, ?_, rfl⟩
  · intro h
    simp only [getVaRScore, getSafeLTV, isScoreValid]
    rw [if_pos h, if_pos h, if_pos h]
    exact ⟨rfl, rfl, rfl⟩
  · intro h
    simp only [isScoreValid]
    rw [if_neg h]
    simp
  · intro h
    simp only [isScoreValid]
    rw [if_neg h]
    simp
  · intro h
    simp only [isScoreValid]
    rw [if_neg h]
    simp
  · intro h hle
    simp only [getVaRScore, getSafeLTV]
    rw [if_neg h, if_neg h, if_neg (by omega), if_neg (by omega)]
    exact ⟨rfl, rfl⟩
  · intro h hlt
    simp only [getVaRScore, getSafeLTV]
    rw [if_neg h, if_neg h, if_pos hlt, if_pos hlt]
    exact ⟨rfl, rfl⟩

/-- Witness for C4 (amended) on the sample state: at the inclusive boundary
`100 + 604800` the record is valid and the getters return the stored values;
one second later it is invalid; `getFullRiskScore` returns the raw stored
record. -/
theorem read_paths_report_validity_witness :
    isScoreValid sampleStoredRegistry 5 7 604900 = true ∧
    isScoreValid sampleStoredRegistry 5 7 604901 = false ∧
    getSafeLTV sampleStoredRegistry 5 7 604900 =
      (sampleStoredRegistry.assetScores 5 7).safeLTV ∧
    getFullRiskScore sampleStoredRegistry 5 7 =
      sampleStoredRegistry.assetScores 5 7 := by
  have h := read_paths_report_validity sampleStoredRegistry 5 7 604900
  refine ⟨?_, ?_, ?_, h.2.2.2.2.2.2⟩
  · exact h.2.2.1 (by decide)
  · exact (read_paths_report_validity sampleStoredRegistry 5 7 604901).2.2.2.1
      (by decide)
  · exact (h.2.2.2.2.1 (by decide) (by decide)).2

/-- Counterexample to C5 as stated: with the stored `safeLTV = 7200` valid
at time `100`, the collateral value `2 ^ 255` makes
`collateralValue * safeLTV` overflow `uint256`, so `calculateMaxBorrow`
reverts with an arithmetic panic instead of returning
`2 ^ 255 * 7200 / 10000`. -/
theorem calculateMaxBorrow_overflow_on_large_collateral :
    calculateMaxBorrow sampleStoredRegistry 5 7 (2 ^ 255) 100 =
      .error .ArithmeticOverflow ∧
    calculateMaxBorrow sampleStoredRegistry 5 7 (2 ^ 255) 100 ≠
      .ok (2 ^ 255 * 7200 / 10000) := by
  have h : calculateMaxBorrow sampleStoredRegistry 5 7 (2 ^ 255) 100 =
      .error .ArithmeticOverflow := by
    simp only [calculateMaxBorrow]
    rw [if_neg (by decide), if_neg (by decide), if_pos (by decide)]
  refine ⟨h, ?_⟩
  rw [h]
  intro hc
  exact Except.noConfusion hc

/-- Claim C5 (amended): for an existing unexpired record,
`calculateMaxBorrow` returns `collateralValue * safeLTV / 10000` (integer
division) whenever the product fits in `uint256`, and reverts with the
overflow panic otherwise; for an absent or expired record it reverts with
the expiry error instead of returning `0`. -/
theorem calculateMaxBorrow_formula (s : RegistryState) (o a v now : Nat) :
    ((s.assetScores o a).timestamp ≠ 0 →
      now ≤ (s.assetScores o a).timestamp + SCORE_VALIDITY_PERIOD →
      v * (s.assetScores o a).safeLTV < UINT256_MOD →
      calculateMaxBorrow s o a v now =
        .ok (v * (s.assetScores o a).safeLTV / MAX_LTV_BPS)) ∧
    ((s.assetScores o a).timestamp = 0 →
      calculateMaxBorrow s o a v now = .error .ScoreExpired) ∧
    ((s.assetScores o a).timestamp ≠ 0 →
      (s.assetScores o a).timestamp + SCORE_VALIDITY_PERIOD < now →
      calculateMaxBorrow s o a v now = .error .ScoreExpired) ∧
    ((s.assetScores o a).timestamp ≠ 0 →
      now ≤ (s.assetScores o a).timestamp + SCORE_VALIDITY_PERIOD →
      UINT256_MOD ≤ v * (s.assetScores o a).safeLTV →
      calculateMaxBorrow s o a v now = .error .ArithmeticOverflow) := by
  refine ⟨?_, ?_, ?_, ?_⟩
  · intro h hle hfit
    simp only [calculateMaxBorrow]
    rw [if_neg h, if_neg (by omega), if_neg (by omega)]
  · intro h
    simp only [calculateMaxBorrow]
    rw [if_pos h]
  · intro h hlt
    simp only [calculateMaxBorrow]
    rw [if_neg h, if_pos hlt]
  · intro h hle hover
    simp only [calculateMaxBorrow]
    rw [if_neg h, if_neg (by omega), if_pos hover]

/-- Witness for C5 (amended), echoing spec Scenario C: with `safeLTV = 7200`
and collateral `1000000`, `calculateMaxBorrow` returns `720000` while the
record is valid, and reverts with the expiry error one second after the
validity window. -/
theorem calculateMaxBorrow_formula_witness :
    calculateMaxBorrow sampleStoredRegistry 5 7 1000000 604900 =
      .ok 720000 ∧
    calculateMaxBorrow sampleStoredRegistry 5 7 1000000 604901 =
      .error .ScoreExpired := by
  constructor
  · have h := (calculateMaxBorrow_formula sampleStoredRegistry 5 7 1000000
      604900).1 (by decide) (by decide) (by decide)
    rw [h]
    rfl
  · exact (calculateMaxBorrow_formula sampleStoredRegistry 5 7 1000000
      604901).2.2.1 (by decide) (by decide)

/-!
## Submission orchestrator (client) and backend submit route

Embeds `executeComputation` from the TEE execution panel and the
`POST /api/iexec/submit-score` route handler.  External collaborators
(wallet, chain, iExec SDK) are modelled by per-asset environments recording
the outcome each collaborator call would produce.  Notes:

* The retained panel is the one with the on-chain Saving/Confirming steps.
* The parsed result blob is untyped JSON; the model keeps exactly the four
  projections the code probes (`var_95_bps` / `safe_ltv_bps`, top level and
  `results[0]`), each possibly absent.  JavaScript `||` treats the number
  `0` as falsy, which `jsOr` reproduces.
* A wallet error whose message contains `User rejected` / `User denied` is
  the refusal case of `DirectSendOutcome`; every other wallet-path throw
  (wallet not connected, send failure, reverted receipt) is caught by the
  non-refusal branch and falls through to the backend fallback.
* The route handler's missing-field 400 response is not modelled: the
  client always sends all six body fields.  The dollar-display conversion
  of the VaR (a float `Math.round`) is presentation-only and the model
  records the parsed bps instead.
* The `isReady` guard and the empty-asset early return precede the loop and
  are not part of the modelled run.
-/

/-- The four probed projections of the TEE result blob. -/
structure TeeBlob where
  var95TopLevel : Option Nat
  safeLtvTopLevel : Option Nat
  var95Results0 : Option Nat
  safeLtvResults0 : Option Nat
deriving DecidableEq

/-- JavaScript `x || d` for a possibly-absent numeric field: an absent field
or the falsy number `0` selects the fallback. -/
def jsOr : Option Nat → Nat → Nat
  | some v, d => if v = 0 then d else v
  | none, d => d

/-- `computedResult?.var_95_bps || computedResult?.results?.[0]?.var_95_bps
|| 1500`. -/
def parseVarBps (b : TeeBlob) : Nat :=
  jsOr b.var95TopLevel (jsOr b.var95Results0 1500)

/-- `computedResult?.safe_ltv_bps || computedResult?.results?.[0]?.safe_ltv_bps
|| 7500`. -/
def parseSafeLtvBps (b : TeeBlob) : Nat :=
  jsOr b.safeLtvTopLevel (jsOr b.safeLtvResults0 7500)

/-- `Math.min(varBps, 9500)` — the value submitted to the registry. -/
def varBpsCapped (b : TeeBlob) : Nat := min (parseVarBps b) 9500

/-- Result of the backend's `writeContract` call: a transaction hash, or a
throw (for example a contract revert surfaced at submission time). -/
inductive WriteOutcome where
  | accepted (txHash : Nat)
  | rejected (e : RegistryError)
deriving DecidableEq

/-- Environment of one invocation of the submit-score route handler. -/
structure BackendEnv where
  keyConfigured : Bool
  addrConfigured : Bool
  onChainOracle : Nat
  backendAddress : Nat
  writeOutcome : WriteOutcome
  receiptReverted : Bool
deriving DecidableEq

/-- HTTP response of the route, as far as the client consumes it. -/
structure RouteResponse where
  ok : Bool
  status : Nat
  txHash : Option Nat
deriving DecidableEq

/-- Status code chosen by the route's catch block from the error message. -/
def errorStatus : RegistryError → Nat
  | .UnauthorizedOracle => 403
  | .InsufficientIterations => 400
  | .InvalidVaRScore => 400
  | .InvalidLTV => 400
  | _ => 500

/-- The `POST /api/iexec/submit-score` handler: config checks, the
`teeOracle` comparison, the contract write, then — after awaiting the
receipt and logging its status — an unconditional success response.  The
receipt's `reverted` status is never consulted. -/
def routeSubmitScore (env : BackendEnv) : RouteResponse :=
  if env.keyConfigured = false then ⟨false, 500, none⟩
  else if env.addrConfigured = false then ⟨false, 500, none⟩
  else if env.onChainOracle ≠ env.backendAddress then ⟨false, 403, none⟩
  else
    match env.writeOutcome with
    | .rejected e => ⟨false, errorStatus e, none⟩
    | .accepted h => ⟨true, 200, some h⟩

/-- Outcome of `walletClient.sendTransaction` on the direct path. -/
inductive DirectSendOutcome where
  | sent (txHash : Nat)
  | userRejected
  | failed
deriving DecidableEq

/-- Per-asset collaborator environment for one orchestration run. -/
structure AssetEnv where
  grantOk : Bool
  processOutcome : Option (Nat × TeeBlob)
  sponsoredBackend : BackendEnv
  chainSwitchOk : Bool
  directSend : DirectSendOutcome
  directReceiptReverted : Bool
  fallbackBackend : BackendEnv
deriving DecidableEq

/-- The three write transports of the design. -/
inductive Transport where
  | sponsored
  | direct
  | relayed
deriving DecidableEq

/-- Errors that escape the saving step to its catch block. -/
inductive SaveError where
  | backendRejected (status : Nat)
  | userRefusal
deriving DecidableEq

/-- Events recorded while a run executes, tagged with the asset index. -/
inductive RunEvent where
  | granting (i : Nat)
  | processing (i : Nat)
  | attesting (i : Nat)
  | savingAttempt (i : Nat) (t : Transport)
  | oracleChecked (i : Nat)
deriving DecidableEq

/-- Events produced by one backend route invocation: the oracle comparison
happens whenever both config checks pass (even when it mismatches). -/
def backendCallEvents (i : Nat) (env : BackendEnv) : List RunEvent :=
  if env.keyConfigured && env.addrConfigured then [.oracleChecked i] else []

/-- Collapsed result of the inner wallet `try` on the direct path:
a confirmed non-reverted transaction; a refusal (message contains
`User rejected` / `User denied`), rethrown immediately; or any other
caught failure — wallet missing, send failure, or a reverted receipt
(`Transaction reverted on-chain`) — which falls through to the backend
fallback. -/
inductive WalletAttempt where
  | confirmed (txHash : Nat)
  | refusal
  | recoverable
deriving DecidableEq

/-- The direct-path wallet attempt (chain-switch failures are logged and
tolerated, hence `chainSwitchOk` is never consulted). -/
def directAttempt (walletConnected : Bool) (env : AssetEnv) : WalletAttempt :=
  if walletConnected = false then .recoverable
  else
    match env.directSend with
    | .userRejected => .refusal
    | .failed => .recoverable
    | .sent h => if env.directReceiptReverted then .recoverable else .confirmed h

/-- Result of the saving/confirming phase of one asset. -/
structure SaveResult where
  attempts : List Transport
  events : List RunEvent
  outcome : Except SaveError (Option Nat)

/-- The saving step of asset `i`.  With gasless mode requested *and* the
smart account enabled, only the sponsored backend path runs, with no
fallback.  Otherwise the direct wallet path runs first; a refusal is
rethrown; any other direct failure triggers exactly one backend (relayed)
fallback attempt. -/
def savingStep (i : Nat) (gaslessActive walletConnected : Bool)
    (env : AssetEnv) : SaveResult :=
  if gaslessActive then
    let r := routeSubmitScore env.sponsoredBackend
    { attempts := [.sponsored],
      events := .savingAttempt i .sponsored ::
        backendCallEvents i env.sponsoredBackend,
      outcome := if r.ok then .ok r.txHash
        else .error (.backendRejected r.status) }
  else
    match directAttempt walletConnected env with
    | .confirmed h =>
      { attempts := [.direct],
        events := [.savingAttempt i .direct],
        outcome := .ok (some h) }
    | .refusal =>
      { attempts := [.direct],
        events := [.savingAttempt i .direct],
        outcome := .error .userRefusal }
    | .recoverable =>
      let r := routeSubmitScore env.fallbackBackend
      { attempts := [.direct, .relayed],
        events := .savingAttempt i .direct :: .savingAttempt i .relayed ::
          backendCallEvents i env.fallbackBackend,
        outcome := if r.ok then .ok r.txHash
          else .error (.backendRejected r.status) }

/-- The per-asset step at which a run fails. -/
inductive StepError where
  | grantFailed
  | processFailed
  | save (e : SaveError)
deriving DecidableEq

/-- Final outcome of a run. -/
inductive RunOutcome where
  | success
  | failedAt (i : Nat) (e : StepError)
deriving DecidableEq

/-- One `onComputeComplete` callback: the per-asset completed result kept by
the caller (parsed bps, the capped bps actually submitted, task id, and the
submission reference). -/
structure AssetDone where
  index : Nat
  varBps : Nat
  submittedVarBps : Nat
  safeLtvBps : Nat
  taskId : Nat
  txHash : Option Nat
deriving DecidableEq

/-- The sequential `for` loop of `executeComputation`, starting at asset
index `i`: grant, process, attest, then save; any failure sets the error
state and returns, halting the whole run while keeping earlier
completions. -/
def execRunAux (gaslessActive walletConnected : Bool) :
    Nat → List AssetEnv → List RunEvent × List AssetDone × RunOutcome
  | _, [] => ([], [], .success)
  | i, env :: rest =>
    if env.grantOk = false then ([.granting i], [], .failedAt i .grantFailed)
    else
      match env.processOutcome with
      | none =>
        ([.granting i, .processing i], [], .failedAt i .processFailed)
      | some (taskId, blob) =>
        let sr := savingStep i gaslessActive walletConnected env
        let pre : List RunEvent := [.granting i, .processing i, .attesting i]
        match sr.outcome with
        | .error e => (pre ++ sr.events, [], .failedAt i (.save e))
        | .ok tx =>
          let next := execRunAux gaslessActive walletConnected (i + 1) rest
          (pre ++ sr.events ++ next.1,
            ⟨i, parseVarBps blob, varBpsCapped blob, parseSafeLtvBps blob,
              taskId, tx⟩ :: next.2.1,
            next.2.2)

/-- A whole orchestration run over the protected assets.  Gasless submission
is active only when the toggle is on *and* the smart account initialization
succeeded. -/
def execRun (gaslessMode isGaslessEnabled walletConnected : Bool)
    (assets : List AssetEnv) : List RunEvent × List AssetDone × RunOutcome :=
  execRunAux (gaslessMode && isGaslessEnabled) walletConnected 0 assets

/-- Index carried by a run event. -/
def runEventIndex : RunEvent → Nat
  | .granting i => i
  | .processing i => i
  | .attesting i => i
  | .savingAttempt i _ => i
  | .oracleChecked i => i

/-- Whether a run event is a backend oracle comparison. -/
def isOracleCheckEvent : RunEvent → Bool
  | .oracleChecked _ => true
  | _ => false

/-- Whether a run event is a Processing (TEE computation) step. -/
def isProcessingEvent : RunEvent → Bool
  | .processing _ => true
  | _ => false

/-- User-visible outcome of one asset in a finished run: `some true` if it
completed, `some false` if it is the asset the run failed at, `none` if the
run never reached it. -/
def assetOutcome (r : List RunEvent × List AssetDone × RunOutcome)
    (i : Nat) : Option Bool :=
  if r.2.1.any fun d => d.index = i then some true
  else
    match r.2.2 with
    | .failedAt k _ => if k = i then some false else none
    | .success => none

/-- A result blob with every probed field absent. -/
def blobEmpty : TeeBlob := ⟨none, none, none, none⟩

/-- A backend environment that is fully configured, matches the on-chain
oracle, submits successfully, and whose receipt finalizes cleanly. -/
def okBackend : BackendEnv := ⟨true, true, 1, 1, .accepted 99, false⟩

/-- An asset whose direct wallet submission fails with a generic
(non-refusal) error. -/
def envDirectFails : AssetEnv :=
  ⟨true, some (11, blobEmpty), okBackend, true, .failed, false, okBackend⟩

/-- An asset whose direct wallet submission is explicitly refused. -/
def envRefusal : AssetEnv :=
  ⟨true, some (11, blobEmpty), okBackend, true, .userRejected, false, okBackend⟩

/-- Counterexample to C6 as stated: with gasless mode *requested* but the
smart account not enabled (`isGaslessEnabled = false`), the run does not use
the sponsored path at all — it takes the direct path and, on a non-refusal
direct failure, still falls back to the relayed path. -/
theorem gasless_request_alone_does_not_select_sponsored :
    ¬ (∀ (isGaslessEnabled walletConnected : Bool) (i : Nat) (env : AssetEnv),
        (savingStep i (true && isGaslessEnabled) walletConnected env).attempts
          = [Transport.sponsored]) ∧
    (savingStep 0 (true && false) true envDirectFails).attempts =
      [Transport.direct, Transport.relayed] := by
  constructor
  · intro h
    exact absurd (h false true 0 envDirectFails) (by decide)
  · rfl

/-- Claim C6 (amended): when gasless mode is requested *and* the sponsored
signer initialized (gasless active), the sponsored path is the only
transport used, with no fallback regardless of its outcome; otherwise the
direct path runs first, a successfully confirmed direct write uses no other
transport, a direct refusal fails the asset immediately with no fallback,
and every other direct-path failure (wallet missing, send failure, reverted
receipt) triggers exactly one relayed attempt. -/
theorem transport_fallback_policy :
    (∀ (i : Nat) (walletConnected : Bool) (env : AssetEnv),
      (savingStep i true walletConnected env).attempts =
        [Transport.sponsored]) ∧
    (∀ (i : Nat) (env : AssetEnv) (h : Nat),
      env.directSend = .sent h → env.directReceiptReverted = false →
      savingStep i false true env =
        ⟨[.direct], [.savingAttempt i .direct], .ok (some h)⟩) ∧
    (∀ (i : Nat) (env : AssetEnv),
      env.directSend = .userRejected →
      savingStep i false true env =
        ⟨[.direct], [.savingAttempt i .direct], .error .userRefusal⟩) ∧
    (∀ (i : Nat) (walletConnected : Bool) (env : AssetEnv),
      directAttempt walletConnected env = .recoverable →
      (savingStep i false walletConnected env).attempts =
        [Transport.direct, Transport.relayed]) ∧
    (∀ env : AssetEnv, env.directSend = .failed →
      directAttempt true env = .recoverable) ∧
    (∀ (env : AssetEnv) (h : Nat),
      env.directSend = .sent h → env.directReceiptReverted = true →
      directAttempt true env = .recoverable) ∧
    (∀ env : AssetEnv, directAttempt false env = .recoverable) := by
  refine ⟨?_, ?_, ?_, ?_, ?_, ?_, ?_⟩
  · intro i walletConnected env
    rfl
  · intro i env h hsend hrev
    simp [savingStep, directAttempt, hsend, hrev]
  · intro i env hsend
    simp [savingStep, directAttempt, hsend]
  · intro i walletConnected env hrec
    simp [savingStep, hrec]
  · intro env hsend
    simp [directAttempt, hsend]
  · intro env h hsend hrev
    simp [directAttempt, hsend, hrev]
  · intro env
    rfl

/-- Witness for C6 (amended) at concrete environments: gasless-active uses
only the sponsored transport; a refusal stops at the direct transport with
the refusal error; a generic direct failure attempts direct then relayed. -/
theorem transport_fallback_policy_witness :
    (savingStep 0 true true envDirectFails).attempts =
      [Transport.sponsored] ∧
    savingStep 0 false true envRefusal =
      ⟨[.direct], [.savingAttempt 0 .direct], .error .userRefusal⟩ ∧
    (savingStep 0 false true envDirectFails).attempts =
      [Transport.direct, Transport.relayed] := by
  refine ⟨?_, ?_, ?_⟩
  · exact transport_fallback_policy.1 0 true envDirectFails
  · exact transport_fallback_policy.2.2.1 0 envRefusal rfl
  · exact transport_fallback_policy.2.2.2.1 0 true envDirectFails
      (transport_fallback_policy.2.2.2.2.1 envDirectFails rfl)

/-- A fully configured, oracle-matching backend whose transaction is
accepted but whose awaited receipt comes back reverted. -/
def revertedBackend : BackendEnv := ⟨true, true, 1, 1, .accepted 99, true⟩

/-- A gasless-path asset whose sponsored write's receipt is reverted. -/
def envSponsoredReverted : AssetEnv :=
  ⟨true, some (11, blobEmpty), revertedBackend, true, .failed, false,
    revertedBackend⟩

/-- A direct-path asset whose wallet transaction is accepted but whose
receipt is reverted; the fallback backend then succeeds. -/
def envDirectReverted : AssetEnv :=
  ⟨true, some (12, blobEmpty), okBackend, true, .sent 55, true, okBackend⟩

/-- Claim C7 evaluated at the failing inputs: the backend route awaits the
receipt but returns success without consulting its reverted status, so a
sponsored submission whose receipt reverted is still reported Complete with
that transaction as its reference; and on the direct path a reverted
receipt does not end the asset in Error either — it triggers the relayed
fallback, and the asset completes with the fallback's reference. -/
theorem reverted_finalization_reported_complete :
    routeSubmitScore revertedBackend = ⟨true, 200, some 99⟩ ∧
    routeSubmitScore revertedBackend =
      routeSubmitScore { revertedBackend with receiptReverted := false } ∧
    revertedBackend.receiptReverted = true ∧
    (execRun true true true [envSponsoredReverted]).2.2 = .success ∧
    (execRun true true true [envSponsoredReverted]).2.1 =
      [⟨0, 1500, 1500, 7500, 11, some 99⟩] ∧
    (savingStep 0 false true envDirectReverted).attempts =
      [Transport.direct, Transport.relayed] ∧
    (execRun false false true [envDirectReverted]).2.2 = .success := by
  refine ⟨rfl, rfl, rfl, rfl, ?_, rfl, rfl⟩
  decide

/-- A gasless-path asset with a successful, oracle-matching backend. -/
def envSponsoredOk : AssetEnv :=
  ⟨true, some (11, blobEmpty), okBackend, true, .failed, false, okBackend⟩

/-- Counterexample to C8 as stated: in a 2-asset gasless run the backend
oracle comparison happens twice (once per submission), and the first TEE
computation (Processing) event precedes the first oracle comparison, so the
check is neither performed exactly once per run nor before computation cost
is incurred. -/
theorem oracle_check_neither_once_nor_first :
    (execRun true true true [envSponsoredOk, envSponsoredOk]).1.countP
      isOracleCheckEvent = 2 ∧
    (execRun true true true [envSponsoredOk, envSponsoredOk]).1.findIdx
        isProcessingEvent <
      (execRun true true true [envSponsoredOk, envSponsoredOk]).1.findIdx
        isOracleCheckEvent := by
  decide

/-- Claim C8 (amended): the oracle-identity comparison lives inside the
backend submit route, so on the sponsored path it runs once per submission,
during that asset's Saving step — after the asset's computation has already
run — and a mismatch fails that submission with status 403, halting the run
at that asset rather than aborting the run up front. -/
theorem oracle_check_per_sponsored_submission (walletConnected : Bool)
    (env : AssetEnv) (rest : List AssetEnv) (taskId : Nat) (blob : TeeBlob)
    (hg : env.grantOk = true)
    (hp : env.processOutcome = some (taskId, blob))
    (hk : env.sponsoredBackend.keyConfigured = true)
    (ha : env.sponsoredBackend.addrConfigured = true)
    (hm : env.sponsoredBackend.onChainOracle ≠
      env.sponsoredBackend.backendAddress) :
    (execRun true true walletConnected (env :: rest)).2.2 =
      .failedAt 0 (.save (.backendRejected 403)) ∧
    (execRun true true walletConnected (env :: rest)).1 =
      [.granting 0, .processing 0, .attesting 0,
        .savingAttempt 0 .sponsored, .oracleChecked 0] ∧
    (execRun true true walletConnected (env :: rest)).2.1 = [] := by
  have hroute : routeSubmitScore env.sponsoredBackend = ⟨false, 403, none⟩ := by
    unfold routeSubmitScore
    rw [if_neg (by simp [hk]), if_neg (by simp [ha]), if_pos hm]
  have hsave : savingStep 0 true walletConnected env =
      ⟨[.sponsored], [.savingAttempt 0 .sponsored, .oracleChecked 0],
        .error (.backendRejected 403)⟩ := by
    unfold savingStep backendCallEvents
    rw [if_pos rfl, hroute, if_pos (by simp [hk, ha])]
    rfl
  unfold execRun
  simp only [Bool.and_self]
  unfold execRunAux
  rw [if_neg (by simp [hg]), hp]
  simp [hsave]

/-- A backend environment whose signing key does not match the registry's
current oracle. -/
def mismatchBackend : BackendEnv := ⟨true, true, 1, 2, .accepted 99, false⟩

/-- A gasless-path asset hitting the oracle mismatch. -/
def envSponsoredMismatch : AssetEnv :=
  ⟨true, some (11, blobEmpty), mismatchBackend, true, .failed, false,
    mismatchBackend⟩

/-- Witness for C8 (amended): a concrete 2-asset gasless run against a
mismatched backend fails at asset 0 with status 403, after asset 0's
computation ran, with no completions. -/
theorem oracle_check_per_sponsored_submission_witness :
    (execRun true true true [envSponsoredMismatch, envSponsoredOk]).2.2 =
      .failedAt 0 (.save (.backendRejected 403)) ∧
    (execRun true true true [envSponsoredMismatch, envSponsoredOk]).1 =
      [.granting 0, .processing 0, .attesting 0,
        .savingAttempt 0 .sponsored, .oracleChecked 0] ∧
    (execRun true true true [envSponsoredMismatch, envSponsoredOk]).2.1 =
      [] := by
  exact oracle_check_per_sponsored_submission true envSponsoredMismatch
    [envSponsoredOk] 11 blobEmpty rfl rfl rfl rfl (by decide)

lemma execRunAux_submitted (gaslessActive walletConnected : Bool) :
    ∀ (assets : List AssetEnv) (i : Nat) (d : AssetDone),
      d ∈ (execRunAux gaslessActive walletConnected i assets).2.1 →
      d.submittedVarBps = min d.varBps 9500 := by
  intro assets
  induction assets with
  | nil => intro i d hd; simp [execRunAux] at hd
  | cons env rest ih =>
    intro i d hd
    unfold execRunAux at hd
    split at hd
    · simp at hd
    · split at hd
      · simp at hd
      · rename_i taskId blob hp
        cases houtc : (savingStep i gaslessActive walletConnected env).outcome
          with
        | error e => simp [houtc] at hd
        | ok tx =>
          simp only [houtc, List.mem_cons] at hd
          rcases hd with rfl | hd
          · rfl
          · exact ih (i + 1) d hd

/-- Claim C10: the Attesting step probes the top-level fields and the
first-element results array for `(var_95_bps, safe_ltv_bps)`, uses the
defaults `(1500, 7500)` when a field is absent in both probed shapes, and
caps the VaR value actually submitted to the registry at 9500 — strictly
below the registry's own 10000 ceiling — for every completed asset of
every run. -/
theorem attesting_parse_and_clamp :
    (∀ b : TeeBlob, b.var95TopLevel = none → b.var95Results0 = none →
      parseVarBps b = 1500) ∧
    (∀ b : TeeBlob, b.safeLtvTopLevel = none → b.safeLtvResults0 = none →
      parseSafeLtvBps b = 7500) ∧
    (∀ (b : TeeBlob) (v : Nat), v ≠ 0 → b.var95TopLevel = some v →
      parseVarBps b = v) ∧
    (∀ (b : TeeBlob) (v : Nat), v ≠ 0 → b.var95TopLevel = none →
      b.var95Results0 = some v → parseVarBps b = v) ∧
    (∀ b : TeeBlob, varBpsCapped b = min (parseVarBps b) 9500) ∧
    (∀ b : TeeBlob, varBpsCapped b ≤ 9500 ∧ 9500 < MAX_LTV_BPS) ∧
    (∀ (gaslessActive walletConnected : Bool) (i : Nat)
      (assets : List AssetEnv),
      ∀ d ∈ (execRunAux gaslessActive walletConnected i assets).2.1,
        d.submittedVarBps = min d.varBps 9500 ∧ d.submittedVarBps ≤ 9500) := by
  refine ⟨?_, ?_, ?_, ?_, ?_, ?_, ?_⟩
  · intro b h1 h2
    simp [parseVarBps, jsOr, h1, h2]
  · intro b h1 h2
    simp [parseSafeLtvBps, jsOr, h1, h2]
  · intro b v hv h1
    simp [parseVarBps, jsOr, h1, hv]
  · intro b v hv h1 h2
    simp [parseVarBps, jsOr, h1, h2, hv]
  · intro b
    rfl
  · intro b
    exact ⟨Nat.min_le_right _ _, by decide⟩
  · intro gaslessActive walletConnected i assets d hd
    have h := execRunAux_submitted gaslessActive walletConnected assets i d hd
    exact ⟨h, by rw [h]; exact Nat.min_le_right _ _⟩

/-- Witness for C10 at concrete blobs: the empty blob parses to the
defaults; a top-level value wins; a `results[0]` value is used when the top
level is absent; an oversized VaR of 12000 bps is capped to 9500. -/
theorem attesting_parse_and_clamp_witness :
    parseVarBps blobEmpty = 1500 ∧
    parseSafeLtvBps blobEmpty = 7500 ∧
    parseVarBps ⟨some 2000, none, none, none⟩ = 2000 ∧
    parseVarBps ⟨none, none, some 800, none⟩ = 800 ∧
    varBpsCapped ⟨some 12000, none, none, none⟩ = 9500 := by
  refine ⟨?_, ?_, ?_, ?_, ?_⟩
  · exact attesting_parse_and_clamp.1 blobEmpty rfl rfl
  · exact attesting_parse_and_clamp.2.1 blobEmpty rfl rfl
  · exact attesting_parse_and_clamp.2.2.1 ⟨some 2000, none, none, none⟩ 2000
      (by decide) rfl
  · exact attesting_parse_and_clamp.2.2.2.1 ⟨none, none, some 800, none⟩ 800
      (by decide) rfl rfl
  · rw [attesting_parse_and_clamp.2.2.2.2.1 ⟨some 12000, none, none, none⟩]
    decide

/-- An asset that completes over the direct wallet path. -/
def envDirectOk : AssetEnv :=
  ⟨true, some (12, blobEmpty), okBackend, true, .sent 55, false, okBackend⟩

/-- An asset whose Processing (TEE computation) step throws. -/
def envProcessFails : AssetEnv :=
  ⟨true, none, okBackend, true, .sent 55, false, okBackend⟩

/-- Counterexample to C9 as stated: in a 3-asset run failing at asset 1,
asset 2 is never attempted and therefore ends in *neither* Complete nor
Error, refuting "each asset in a run ends in exactly one of Complete or
Error"; the halting and preservation parts hold (asset 0 stays Complete,
asset 1 is the Error). -/
theorem unattempted_asset_has_no_outcome :
    (execRun false false true
      [envDirectOk, envProcessFails, envDirectOk]).2.2 =
      .failedAt 1 .processFailed ∧
    (execRun false false true
      [envDirectOk, envProcessFails, envDirectOk]).2.1.map AssetDone.index =
      [0] ∧
    assetOutcome (execRun false false true
      [envDirectOk, envProcessFails, envDirectOk]) 0 = some true ∧
    assetOutcome (execRun false false true
      [envDirectOk, envProcessFails, envDirectOk]) 1 = some false ∧
    assetOutcome (execRun false false true
      [envDirectOk, envProcessFails, envDirectOk]) 2 = none := by
  decide

lemma savingStep_event_index (i : Nat) (gaslessActive walletConnected : Bool)
    (env : AssetEnv) :
    ∀ ev ∈ (savingStep i gaslessActive walletConnected env).events,
      runEventIndex ev = i := by
  intro ev hev
  unfold savingStep backendCallEvents at hev
  split at hev
  · simp only [List.mem_cons] at hev
    rcases hev with rfl | hev
    · rfl
    · split at hev
      · simp only [List.mem_singleton] at hev
        subst hev
        rfl
      · simp at hev
  · split at hev
    · simp only [List.mem_singleton] at hev
      subst hev
      rfl
    · simp only [List.mem_singleton] at hev
      subst hev
      rfl
    · simp only [List.mem_cons] at hev
      rcases hev with rfl | rfl | hev
      · rfl
      · rfl
      · split at hev
        · simp only [List.mem_singleton] at hev
          subst hev
          rfl
        · simp at hev

/-- Claim C9 (amended): whenever a run fails at asset `k`, every asset
before `k` completed and keeps its callback entry (result and submission
reference), asset `k` is the Error, no event of the run touches an asset
after `k` — assets after `k` are never attempted in any step and so have no
outcome at all (rather than an Error outcome) — and the run's outcome is
the failure at `k`. -/
theorem run_halts_preserving_progress
    (gaslessActive walletConnected : Bool) :
    ∀ (assets : List AssetEnv) (i k : Nat) (e : StepError)
      (evs : List RunEvent) (dones : List AssetDone),
      execRunAux gaslessActive walletConnected i assets =
        (evs, dones, .failedAt k e) →
      i ≤ k ∧ k < i + assets.length ∧
      dones.map AssetDone.index = List.range' i (k - i) ∧
      (∀ j, i ≤ j → j < k → ∃ d ∈ dones, d.index = j) ∧
      (∀ ev ∈ evs, runEventIndex ev ≤ k) ∧
      RunEvent.granting k ∈ evs := by
  intro assets
  induction assets with
  | nil =>
    intro i k e evs dones h
    simp [execRunAux] at h
  | cons env rest ih =>
    intro i k e evs dones h
    unfold execRunAux at h
    by_cases hg : env.grantOk = false
    · rw [if_pos hg] at h
      simp only [Prod.mk.injEq, RunOutcome.failedAt.injEq] at h
      obtain ⟨hevs, hdones, hik, hee⟩ := h
      subst hevs
      subst hdones
      subst hik
      refine ⟨Nat.le_refl i, ?_, ?_, ?_, ?_, ?_⟩
      · simp only [List.length_cons]
        omega
      · simp
      · intro j hij hji
        exact absurd hji (by omega)
      · intro ev hev
        simp only [List.mem_cons, List.not_mem_nil, or_false] at hev
        subst hev
        exact Nat.le_refl i
      · exact List.mem_cons_self _ _
    · rw [if_neg hg] at h
      cases hpo : env.processOutcome with
      | none =>
        simp only [hpo, Prod.mk.injEq, RunOutcome.failedAt.injEq] at h
        obtain ⟨hevs, hdones, hik, hee⟩ := h
        subst hevs
        subst hdones
        subst hik
        refine ⟨Nat.le_refl i, ?_, ?_, ?_, ?_, ?_⟩
        · simp only [List.length_cons]
          omega
        · simp
        · intro j hij hji
          exact absurd hji (by omega)
        · intro ev hev
          simp only [List.mem_cons, List.not_mem_nil, or_false] at hev
          rcases hev with rfl | rfl
          · exact Nat.le_refl i
          · exact Nat.le_refl i
        · exact List.mem_cons_self _ _
      | some p =>
        obtain ⟨taskId, blob⟩ := p
        cases houtc :
            (savingStep i gaslessActive walletConnected env).outcome with
        | error se =>
          simp only [hpo, houtc, Prod.mk.injEq,
            RunOutcome.failedAt.injEq] at h
          obtain ⟨hevs, hdones, hik, hee⟩ := h
          subst hevs
          subst hdones
          subst hik
          refine ⟨Nat.le_refl i, ?_, ?_, ?_, ?_, ?_⟩
          · simp only [List.length_cons]
            omega
          · simp
          · intro j hij hji
            exact absurd hji (by omega)
          · intro ev hev
            rcases List.mem_append.mp hev with hpre | hse
            · simp only [List.mem_cons, List.not_mem_nil, or_false] at hpre
              rcases hpre with rfl | rfl | rfl
              · exact Nat.le_refl i
              · exact Nat.le_refl i
              · exact Nat.le_refl i
            · have hidx := savingStep_event_index i gaslessActive
                walletConnected env ev hse
              omega
          · exact List.mem_append_left _ (List.mem_cons_self _ _)
        | ok tx =>
          simp only [hpo, houtc, Prod.mk.injEq] at h
          obtain ⟨hevs, hdones, hout⟩ := h
          have hnext : execRunAux gaslessActive walletConnected (i + 1) rest =
              ((execRunAux gaslessActive walletConnected (i + 1) rest).1,
                (execRunAux gaslessActive walletConnected (i + 1) rest).2.1,
                .failedAt k e) := by
            rw [← hout]
          obtain ⟨hik, hklen, hmap, hcomp, hevidx, hgrant⟩ :=
            ih (i + 1) k e _ _ hnext
          subst hevs
          subst hdones
          refine ⟨by omega, ?_, ?_, ?_, ?_, ?_⟩
          · simp only [List.length_cons] at hklen ⊢
            omega
          · have hki : k - i = (k - (i + 1)) + 1 := by omega
            rw [hki, List.map_cons, hmap]
            rfl
          · intro j hij hjk
            rcases Nat.eq_or_lt_of_le hij with heq | hlt
            · exact ⟨_, List.mem_cons_self _ _, heq⟩
            · obtain ⟨d, hd, hdi⟩ := hcomp j hlt hjk
              exact ⟨d, List.mem_cons_of_mem _ hd, hdi⟩
          · intro ev hev
            rcases List.mem_append.mp hev with hl | hr
            · rcases List.mem_append.mp hl with hpre | hse
              · simp only [List.mem_cons, List.not_mem_nil, or_false] at hpre
                rcases hpre with rfl | rfl | rfl
                · show i ≤ k
                  omega
                · show i ≤ k
                  omega
                · show i ≤ k
                  omega
              · have hidx := savingStep_event_index i gaslessActive
                  walletConnected env ev hse
                omega
            · exact hevidx ev hr
          · exact List.mem_append_right _ hgrant

/-- Witness for C9 (amended) on the concrete 3-asset run failing at asset 1:
asset 0's completion entry is kept (`dones` indices are exactly `[0]`) and
the failing asset's Granting event is in the trace. -/
theorem run_halts_preserving_progress_witness :
    (execRunAux false true 0
      [envDirectOk, envProcessFails, envDirectOk]).2.1.map AssetDone.index =
      List.range' 0 1 ∧
    RunEvent.granting 1 ∈
      (execRunAux false true 0 [envDirectOk, envProcessFails,
        envDirectOk]).1 := by
  have heq : execRunAux false true 0
      [envDirectOk, envProcessFails, envDirectOk] =
      ((execRunAux false true 0 [envDirectOk, envProcessFails,
          envDirectOk]).1,
        (execRunAux false true 0 [envDirectOk, envProcessFails,
          envDirectOk]).2.1,
        .failedAt 1 .processFailed) := by
    decide
  have h := run_halts_preserving_progress false true
    [envDirectOk, envProcessFails, envDirectOk] 0 1 .processFailed _ _ heq
  exact ⟨h.2.2.1, h.2.2.2.2.2⟩

end Aegis
